import Mathlib

/-!
Shallow embedding of the Proxima Discord team-management bot (src/main.py).

The bot keeps four SQLite tables (global_config, teams, free_agents,
player_stats) and mutates Discord guild state (role membership).  We model a
single guild's state as a record of the four tables plus the guild's member
list (each member carrying an ordered list of role ids), the set of existing
role ids (`guild.get_role`) and channel ids (`guild.get_channel`).

Commands are embedded as pure functions `State → ... → State × Except String β`:
an early `return await interaction.followup.send(error)` is an `Except.error`
carrying the message, and the returned `State` component shows exactly which
rows/roles were touched.  SQLite `INSERT OR REPLACE` on a primary key deletes
every conflicting row and appends the new one; `UPDATE ... WHERE` maps over
matching rows; `DELETE ... WHERE` filters.
-/

namespace Proxima

/-- Row of `global_config` (main.py init_db): guild_id, manager_role_id,
asst_role_id, contract_channel_id, free_agent_role_id, window_open (default 1),
demand_limit (default 3).  Tuple index i in python is field i here. -/
structure GlobalConfig where
  guild_id : Nat
  manager_role_id : Nat
  asst_role_id : Nat
  contract_channel_id : Option Nat
  free_agent_role_id : Option Nat
  window_open : Int
  demand_limit : Int
deriving DecidableEq, Repr

/-- Row of `teams`: team_role_id PRIMARY KEY, logo, roster_limit, transaction_image. -/
structure TeamRow where
  team_role_id : Nat
  logo : String
  roster_limit : Int
  transaction_image : Option String
deriving DecidableEq, Repr

/-- Row of `free_agents`: user_id PRIMARY KEY, region, position, description, timestamp. -/
structure FreeAgentRow where
  user_id : Nat
  region : String
  position : String
  description : String
  timestamp : String
deriving DecidableEq, Repr

/-- Row of `player_stats`: user_id PRIMARY KEY, transfers, demands. -/
structure StatsRow where
  user_id : Nat
  transfers : Int
  demands : Int
deriving DecidableEq, Repr

/-- A guild member: Discord id plus the ordered list of role ids they hold
(`member.roles`). -/
structure Member where
  id : Nat
  roles : List Nat
deriving DecidableEq, Repr

/-- One guild's world state: the four tables, the member list, and the sets of
role/channel ids that exist in the guild. -/
structure State where
  config : Option GlobalConfig
  teams : List TeamRow
  free_agents : List FreeAgentRow
  player_stats : List StatsRow
  members : List Member
  guildRoles : List Nat
  channels : List Nat
deriving DecidableEq, Repr

/-- `SELECT * FROM teams WHERE team_role_id = ?` (get_team_data, cache aside:
every write path invalidates the cache, so reads are fresh). -/
def getTeamData (teams : List TeamRow) (roleId : Nat) : Option TeamRow :=
  teams.find? (fun t => t.team_role_id = roleId)

/-- `guild.get_member(id)`. -/
def getMember (s : State) (uid : Nat) : Option Member :=
  s.members.find? (fun m => m.id = uid)

/-- `team_role.members`: guild members holding the role, in member-list order. -/
def teamMembers (s : State) (roleId : Nat) : List Member :=
  s.members.filter (fun m => roleId ∈ m.roles)

/-- `member.add_roles(role)`: no-op when already held, else appended. -/
def addRole (s : State) (uid roleId : Nat) : State :=
  { s with members := s.members.map (fun m =>
      if m.id = uid then
        if roleId ∈ m.roles then m else { m with roles := m.roles ++ [roleId] }
      else m) }

/-- `member.remove_roles(role)`. -/
def removeRole (s : State) (uid roleId : Nat) : State :=
  { s with members := s.members.map (fun m =>
      if m.id = uid then { m with roles := m.roles.filter (fun r => r ≠ roleId) }
      else m) }

/-- find_user_team (main.py:161): scan the member's roles in order, return the
first that is a registered team, as (role id, logo, roster_limit, transaction_image). -/
def find_user_team (teams : List TeamRow) : List Nat → Option (Nat × String × Int × Option String)
  | [] => none
  | r :: rs =>
    match getTeamData teams r with
    | some t => some (r, t.logo, t.roster_limit, t.transaction_image)
    | none => find_user_team teams rs

/-- is_window_open (main.py:172): no config row means open; otherwise the
window_open column must equal 1. -/
def is_window_open (config : Option GlobalConfig) : Bool :=
  match config with
  | none => true
  | some c => c.window_open = 1

/-- get_player_stats (main.py:134): return the row, lazily INSERTing
(user_id, 0, 0) when absent. -/
def get_player_stats (s : State) (uid : Nat) : StatsRow × State :=
  match s.player_stats.find? (fun r => r.user_id = uid) with
  | some r => (r, s)
  | none =>
    (⟨uid, 0, 0⟩, { s with player_stats := s.player_stats ++ [⟨uid, 0, 0⟩] })

/-- The two stat columns update_stat can bump. -/
inductive StatType where
  | transfer
  | demand
deriving DecidableEq, Repr

/-- `SET transfers = transfers + amount` resp. `SET demands = demands + amount`
applied to one row. -/
def applyStat (t : StatType) (amount : Int) (r : StatsRow) : StatsRow :=
  match t with
  | .transfer => { r with transfers := r.transfers + amount }
  | .demand => { r with demands := r.demands + amount }

/-- update_stat (main.py:144): ensure the row exists, then
`UPDATE player_stats SET <col> = <col> + amount WHERE user_id = ?`. -/
def update_stat (s : State) (uid : Nat) (t : StatType) (amount : Int) : State :=
  let s1 := (get_player_stats s uid).2
  { s1 with player_stats := s1.player_stats.map (fun r =>
      if r.user_id = uid then applyStat t amount r else r) }

/-- cleanup_free_agent (main.py:195): DELETE the member's free_agents row, then
remove the configured free-agent role if it exists and the member holds it. -/
def cleanup_free_agent (s : State) (uid : Nat) : State :=
  let s1 := { s with free_agents := s.free_agents.filter (fun r => r.user_id ≠ uid) }
  match s1.config with
  | some c =>
    match c.free_agent_role_id with
    | some fr =>
      if fr ∈ s1.guildRoles then
        match getMember s1 uid with
        | some m => if fr ∈ m.roles then removeRole s1 uid fr else s1
        | none => s1
      else s1
    | none => s1
  | none => s1

/-- The demand count stored for a user (0 when no row exists yet). -/
def demandsOf (s : State) (uid : Nat) : Int :=
  match s.player_stats.find? (fun r => r.user_id = uid) with
  | some r => r.demands
  | none => 0

/-- The transfer count stored for a user (0 when no row exists yet). -/
def transfersOf (s : State) (uid : Nat) : Int :=
  match s.player_stats.find? (fun r => r.user_id = uid) with
  | some r => r.transfers
  | none => 0

/-- The per-guild demand limit: `g_conf[6] if g_conf and len(g_conf) > 6 else 3`. -/
def demandLimitOf (config : Option GlobalConfig) : Int :=
  match config with
  | some c => c.demand_limit
  | none => 3

/-- /demand (main.py:736): find the caller's team (error if none), read the
guild demand limit and the caller's stats (lazily creating the stats row),
refuse when demands used ≥ limit; otherwise remove the team role, bump the
demand counter, grant the free-agent role when configured, and announce. -/
def demand (s : State) (uid : Nat) : State × Except String String :=
  match getMember s uid with
  | none => (s, Except.error "member missing")
  | some user =>
    match find_user_team s.teams user.roles with
    | none => (s, Except.error "❌ Not in a team.")
    | some (teamRole, _, _, _) =>
      let dl := demandLimitOf s.config
      let pr := get_player_stats s uid
      let used := pr.1.demands
      if used ≥ dl then
        (pr.2, Except.error "🚫 **Demand Limit Reached!**")
      else
        let s2 := removeRole pr.2 uid teamRole
        let s3 := update_stat s2 uid .demand 1
        let s4 :=
          match s3.config with
          | some c =>
            match c.free_agent_role_id with
            | some fr => if fr ∈ s3.guildRoles then addRole s3 uid fr else s3
            | none => s3
          | none => s3
        (s4, Except.ok "👋 Left team.")

/-- get_managers_of_team (main.py:181): walk the team role's members; a member
with the manager role is a head manager, else one with the assistant role is an
assistant (the python `elif` makes the two lists disjoint). -/
def get_managers_of_team (s : State) (teamRole : Nat) : List Member × List Member :=
  match s.config with
  | none => ([], [])
  | some c =>
    let tm := teamMembers s teamRole
    (tm.filter (fun m => c.manager_role_id ∈ m.roles),
     tm.filter (fun m => c.manager_role_id ∉ m.roles ∧ c.asst_role_id ∈ m.roles))

/-- send_to_channel (main.py:314) succeeds iff a contract channel is configured
and still exists in the guild. -/
def sendToChannelOk (s : State) : Bool :=
  match s.config with
  | some c =>
    match c.contract_channel_id with
    | some ch => ch ∈ s.channels
    | none => false
  | none => false

/-- /sign (main.py:658): window gate, manager/assistant authorization, caller
must have a registered team, player must be team-free and the roster not full;
then add the team role, clean up the player's free-agent listing and bump their
transfer counter. -/
def sign (s : State) (callerId playerId : Nat) : State × Except String String :=
  if !is_window_open s.config then (s, Except.error "❌ **Window Closed.**")
  else
    match s.config with
    | none => (s, Except.error "TypeError")
    | some c =>
      match getMember s callerId, getMember s playerId with
      | some caller, some player =>
        if ¬(c.manager_role_id ∈ caller.roles ∨ c.asst_role_id ∈ caller.roles) then
          (s, Except.error "❌ Not Authorized.")
        else
          match find_user_team s.teams caller.roles with
          | none => (s, Except.error "❌ No team role.")
          | some (teamRole, _, limit, _) =>
            if teamRole ∈ player.roles then (s, Except.error "⚠️ Already on team.")
            else if (find_user_team s.teams player.roles).isSome then
              (s, Except.error "🚫 Player on another team. Use /transfer.")
            else if ((teamMembers s teamRole).length : Int) ≥ limit then
              (s, Except.error "❌ Roster Full!")
            else
              let s1 := addRole s playerId teamRole
              let s2 := cleanup_free_agent s1 playerId
              let s3 := update_stat s2 playerId .transfer 1
              (s3, Except.ok "✅ Player Signed!")
      | _, _ => (s, Except.error "member missing")

/-- /release (main.py:703): window gate, caller must have a team, player must
hold that team role; then remove the role (no stat update, no free-agent cleanup). -/
def release (s : State) (callerId playerId : Nat) : State × Except String String :=
  if !is_window_open s.config then (s, Except.error "❌ Window Closed.")
  else
    match getMember s callerId, getMember s playerId with
    | some caller, some player =>
      match find_user_team s.teams caller.roles with
      | none => (s, Except.error "❌ No team.")
      | some (teamRole, _, _, _) =>
        if teamRole ∉ player.roles then (s, Except.error "⚠️ Player not on team.")
        else (removeRole s playerId teamRole, Except.ok "✅ Released!")
    | _, _ => (s, Except.error "member missing")

/-- Outcome of a successful /transfer: who received the offer control, and
whether the DM could be delivered. -/
structure TransferOut where
  recipientId : Nat
  delivered : Bool
deriving DecidableEq, Repr

/-- /transfer (main.py:926): window gate, both sides must have teams and they
must differ; recipient is `heads[0] if heads else (assts[0] if assts else None)`,
refusing when None; the offer DM either lands or the caller is told it failed.
No database row or role changes here. -/
def transfer (s : State) (callerId playerId : Nat) (dmOk : Bool) :
    State × Except String TransferOut :=
  if !is_window_open s.config then (s, Except.error "❌ **Window CLOSED.**")
  else
    match getMember s callerId, getMember s playerId with
    | some caller, some player =>
      match find_user_team s.teams caller.roles with
      | none => (s, Except.error "❌ Not a manager.")
      | some (myTeam, _, _, _) =>
        match find_user_team s.teams player.roles with
        | none => (s, Except.error "⚠️ Player not on a team.")
        | some (targetTeam, _, _, _) =>
          if myTeam = targetTeam then (s, Except.error "⚠️ Already on your team!")
          else
            let hm := get_managers_of_team s targetTeam
            match hm.1.head? with
            | some h => (s, Except.ok ⟨h.id, dmOk⟩)
            | none =>
              match hm.2.head? with
              | some a => (s, Except.ok ⟨a.id, dmOk⟩)
              | none => (s, Except.error "❌ Team has no active Manager.")
    | _, _ => (s, Except.error "member missing")

/-- The two buttons of a TransferView plus its stopped flag. -/
structure ViewState where
  acceptDisabled : Bool
  declineDisabled : Bool
  stopped : Bool
deriving DecidableEq, Repr

/-- The arguments the accept handler passes to generate_transaction_card. -/
structure CardRequest where
  playerId : Nat
  title : String
  customBg : Option String
deriving DecidableEq, Repr

/-- Outcome of a successful accept: the rendered card request, whether the
public notice reached the contract channel, and the edited control message. -/
structure AcceptOut where
  card : CardRequest
  posted : Bool
  editMsg : String
deriving DecidableEq, Repr

/-- TransferView.accept (main.py:343): re-check the window, require the player
to still be a guild member; then move the role from the source to destination
team, clean up the free-agent listing, bump the transfer counter, render an
"OFFICIAL TRANSFER" card with the destination team's stored background, post
the notice, and disable both buttons. -/
def accept (s : State) (v : ViewState) (playerId fromTeam toTeam : Nat) :
    State × ViewState × Except String AcceptOut :=
  if !is_window_open s.config then
    (s, v, Except.error "❌ **Transfer Window is CLOSED.**")
  else
    match getMember s playerId with
    | none => (s, v, Except.error "❌ Player missing.")
    | some _ =>
      let s1 := removeRole s playerId fromTeam
      let s2 := addRole s1 playerId toTeam
      let s3 := cleanup_free_agent s2 playerId
      let s4 := update_stat s3 playerId .transfer 1
      let customBg := (getTeamData s4.teams toTeam).bind (fun t => t.transaction_image)
      (s4, ⟨true, true, true⟩,
       Except.ok ⟨⟨playerId, "OFFICIAL TRANSFER", customBg⟩, sendToChannelOk s4,
                  "✅ **Transfer Approved.**"⟩)

/-- SQLite `INSERT OR REPLACE INTO teams`: delete rows with the same primary
key, append the new row. -/
def insertOrReplaceTeam (teams : List TeamRow) (row : TeamRow) : List TeamRow :=
  teams.filter (fun t => t.team_role_id ≠ row.team_role_id) ++ [row]

/-- SQLite `INSERT OR REPLACE INTO free_agents`. -/
def insertOrReplaceAgent (ags : List FreeAgentRow) (row : FreeAgentRow) : List FreeAgentRow :=
  ags.filter (fun r => r.user_id ≠ row.user_id) ++ [row]

/-- /setup_team (main.py:561): admin only; read the existing row's
transaction_image (None when absent) and INSERT OR REPLACE the row with the new
logo and roster limit, carrying that image over. -/
def setup_team (s : State) (isAdmin : Bool) (teamRole : Nat) (logo : String)
    (rosterLimit : Int) : State × Except String String :=
  if !isAdmin then (s, Except.error "❌ Admin Only")
  else
    let transImg := (getTeamData s.teams teamRole).bind (fun t => t.transaction_image)
    ({ s with teams := insertOrReplaceTeam s.teams ⟨teamRole, logo, rosterLimit, transImg⟩ },
     Except.ok "✅ registered!")

/-- /team_delete (main.py:577): admin only; DELETE the team's row. -/
def team_delete (s : State) (isAdmin : Bool) (teamRole : Nat) : State × Except String String :=
  if !isAdmin then (s, Except.error "❌ Admin Only")
  else ({ s with teams := s.teams.filter (fun t => t.team_role_id ≠ teamRole) },
        Except.ok "🗑️ removed.")

/-- /window (main.py:589): admin only;
`UPDATE global_config SET window_open = ? WHERE guild_id = ?`. -/
def window_cmd (s : State) (isAdmin : Bool) (status : Int) : State × Except String String :=
  if !isAdmin then (s, Except.error "❌ Admin Only")
  else
    ({ s with config :=
        match s.config with
        | some c => some { c with window_open := status }
        | none => none },
     Except.ok "window set")

/-- /looking_for_team (main.py:824): INSERT OR REPLACE the caller's free-agent
row, then grant the configured free-agent role when it exists. -/
def looking_for_team (s : State) (uid : Nat) (region position description timestamp : String) :
    State × Except String String :=
  let s1 := { s with free_agents :=
      insertOrReplaceAgent s.free_agents ⟨uid, region, position, description, timestamp⟩ }
  let s2 :=
    match s1.config with
    | some c =>
      match c.free_agent_role_id with
      | some fr => if fr ∈ s1.guildRoles then addRole s1 uid fr else s1
      | none => s1
    | none => s1
  (s2, Except.ok "✅ Listed as Free Agent")

/-- A Discord attachment as decorate_transactions sees it. -/
structure Attachment where
  url : String
  contentTypeIsImage : Bool
deriving DecidableEq, Repr

/-- `UPDATE teams SET transaction_image = ? WHERE team_role_id = ?`. -/
def setTransactionImage (s : State) (teamRole : Nat) (img : Option String) : State :=
  { s with teams := s.teams.map (fun t =>
      if t.team_role_id = teamRole then { t with transaction_image := img } else t) }

/-- /decorate_transactions (main.py:612): managers/assistants/admins with a team
may reset (url in reset/none/remove) or set the team's transaction_image from
an image attachment or an http(s) link. -/
def decorate_transactions (s : State) (uid : Nat) (isAdmin : Bool)
    (imageFile : Option Attachment) (url : Option String) : State × Except String String :=
  match s.config with
  | none => (s, Except.error "TypeError")
  | some c =>
    match getMember s uid with
    | none => (s, Except.error "member missing")
    | some user =>
      if ¬(c.manager_role_id ∈ user.roles ∨ c.asst_role_id ∈ user.roles ∨ isAdmin = true) then
        (s, Except.error "❌ Managers or Admins only.")
      else
        match find_user_team s.teams user.roles with
        | none => (s, Except.error "❌ You aren't managing a team.")
        | some (teamRole, _, _, _) =>
          let isReset : Bool :=
            match url with
            | some u => u != "" && (u.toLower == "reset" || u.toLower == "none" || u.toLower == "remove")
            | none => false
          if isReset then
            (setTransactionImage s teamRole none, Except.ok "✅ reverted to Proxima Default.")
          else
            match imageFile with
            | some f =>
              if !f.contentTypeIsImage then (s, Except.error "❌ File must be an image.")
              else (setTransactionImage s teamRole (some f.url), Except.ok "✅ custom background set!")
            | none =>
              match url with
              | some u =>
                if u == "" then (s, Except.error "❌ Provide an Image File OR a URL.")
                else if !(u.startsWith "http") then (s, Except.error "❌ Invalid Link.")
                else (setTransactionImage s teamRole (some u), Except.ok "✅ custom background set!")
              | none => (s, Except.error "❌ Provide an Image File OR a URL.")

/-! ## Card renderer (_generate_card_sync, main.py:228) -/

/-- Oracle for the renderer's environment-dependent steps: whether each network
fetch-and-decode, the local default background, and the font load succeed. -/
structure CardEnv where
  customFetchOk : Bool
  defaultFileExists : Bool
  defaultFileOk : Bool
  avatarFetchOk : Bool
  fontOk : Bool
deriving DecidableEq, Repr

/-- Which background the renderer ends up compositing onto the 800×400 canvas. -/
inductive Background where
  | customUrl (url : String)
  | defaultFile
  | solid (rgb : Nat × Nat × Nat)
deriving DecidableEq, Repr

/-- One `urllib.request.urlopen` call: the url argument and the timeout
argument (`none` when the call passes no timeout, i.e. the platform default). -/
structure FetchCall where
  url : String
  timeout : Option Nat
deriving DecidableEq, Repr

/-- What a render run produces and does: chosen background, the outbound
fetches it issued, whether the avatar was composited, and which font loaded. -/
structure CardResult where
  background : Background
  fetches : List FetchCall
  avatarDrawn : Bool
  trueTypeFont : Bool
deriving DecidableEq, Repr

/-- _generate_card_sync: try the custom url (python truthiness: present and
non-empty) via `urlopen(custom_bg_url)` — any failure leaves img None; then the
local default file if it exists and decodes; else a solid fill of the team
color, with pure black replaced by (44,47,51).  The avatar is always fetched
via `urlopen(player.display_avatar.url)` inside try/except.  Neither urlopen
call passes a timeout argument. -/
def generate_card_sync (env : CardEnv) (customBgUrl : Option String)
    (avatarUrl : String) (teamColor : Nat × Nat × Nat) : CardResult :=
  let step1 : Option Background × List FetchCall :=
    match customBgUrl with
    | some u =>
      if u != "" then
        ((if env.customFetchOk then some (Background.customUrl u) else none),
         [⟨u, none⟩])
      else (none, [])
    | none => (none, [])
  let img2 : Option Background :=
    match step1.1 with
    | some b => some b
    | none =>
      if env.defaultFileExists then
        (if env.defaultFileOk then some Background.defaultFile else none)
      else none
  let bg :=
    match img2 with
    | some b => b
    | none => Background.solid (if teamColor = (0, 0, 0) then (44, 47, 51) else teamColor)
  { background := bg
  , fetches := step1.2 ++ [⟨avatarUrl, none⟩]
  , avatarDrawn := env.avatarFetchOk
  , trueTypeFont := env.fontOk }

/-- The transaction_image currently stored for a team (none when the team row
is absent or the column is NULL). -/
def transImageOf (s : State) (teamRole : Nat) : Option String :=
  (getTeamData s.teams teamRole).bind (fun t => t.transaction_image)

/-- The role ids a user currently holds ([] when not a guild member). -/
def rolesOf (s : State) (uid : Nat) : List Nat :=
  match getMember s uid with
  | some m => m.roles
  | none => []

/-! ## Concrete guild used to evaluate the theorems on closed inputs -/

/-- A configured guild: manager role 10, assistant 11, free-agent role 12,
contract channel 20, window open, demand limit 3. -/
def cOpen : GlobalConfig := ⟨1, 10, 11, some 20, some 12, 1, 3⟩

/-- The same configuration with the transfer window closed. -/
def cClosed : GlobalConfig := { cOpen with window_open := 0 }

/-- Registered team on role 100 with a custom card background. -/
def teamX : TeamRow := ⟨100, "X", 20, some "http://bgX"⟩

/-- Registered team on role 101 without a custom card background. -/
def teamY : TeamRow := ⟨101, "Y", 20, none⟩

/-- Player 7, on team X only. -/
def memP : Member := ⟨7, [100]⟩

/-- Member 8, on team Y and holding the manager role. -/
def memH : Member := ⟨8, [101, 10]⟩

/-- Member 9, on team Y and holding the assistant role. -/
def memA : Member := ⟨9, [101, 11]⟩

/-- Member 5, on team X and holding the manager role. -/
def memHX : Member := ⟨5, [100, 10]⟩

/-- A small open-window guild state. -/
def sOpen : State :=
  ⟨some cOpen, [teamX, teamY], [], [], [memP, memHX, memH, memA],
   [10, 11, 12, 100, 101], [20]⟩

/-- The same guild with the window closed. -/
def sClosed : State := { sOpen with config := some cClosed }

/-- The open guild with player 7 already at the demand limit. -/
def sFull : State := { sOpen with player_stats := [⟨7, 0, 3⟩] }

/-! ## Helper lemmas -/

/-- Pointwise update of the rows matching a key commutes with lookup. -/
theorem find?_map_if_key {α : Type} (key : α → Nat) (k : Nat) (f : α → α)
    (hf : ∀ a, key (f a) = key a) :
    ∀ l : List α,
      (l.map (fun a => if key a = k then f a else a)).find? (fun a => key a = k)
        = (l.find? (fun a => key a = k)).map f
  | [] => rfl
  | a :: l => by
    by_cases h : key a = k
    · simp [h, hf]
    · simp [h, find?_map_if_key key k f hf l]

/-- The first element of a filtered list is the first element satisfying the
predicate. -/
theorem head?_filter {α : Type} (p : α → Bool) :
    ∀ l : List α, (l.filter p).head? = l.find? p
  | [] => rfl
  | a :: l => by
    by_cases h : p a
    · simp [List.filter_cons, h]
    · simp [List.filter_cons, h, head?_filter p l]

@[simp] theorem addRole_teams (s : State) (u r : Nat) : (addRole s u r).teams = s.teams := rfl

@[simp] theorem addRole_config (s : State) (u r : Nat) : (addRole s u r).config = s.config := rfl

@[simp] theorem addRole_player_stats (s : State) (u r : Nat) :
    (addRole s u r).player_stats = s.player_stats := rfl

@[simp] theorem addRole_free_agents (s : State) (u r : Nat) :
    (addRole s u r).free_agents = s.free_agents := rfl

@[simp] theorem addRole_channels (s : State) (u r : Nat) : (addRole s u r).channels = s.channels := rfl

@[simp] theorem addRole_guildRoles (s : State) (u r : Nat) :
    (addRole s u r).guildRoles = s.guildRoles := rfl

@[simp] theorem removeRole_teams (s : State) (u r : Nat) : (removeRole s u r).teams = s.teams := rfl

@[simp] theorem removeRole_config (s : State) (u r : Nat) :
    (removeRole s u r).config = s.config := rfl

@[simp] theorem removeRole_player_stats (s : State) (u r : Nat) :
    (removeRole s u r).player_stats = s.player_stats := rfl

@[simp] theorem removeRole_free_agents (s : State) (u r : Nat) :
    (removeRole s u r).free_agents = s.free_agents := rfl

@[simp] theorem removeRole_channels (s : State) (u r : Nat) :
    (removeRole s u r).channels = s.channels := rfl

@[simp] theorem removeRole_guildRoles (s : State) (u r : Nat) :
    (removeRole s u r).guildRoles = s.guildRoles := rfl

@[simp] theorem get_player_stats_snd_members (s : State) (u : Nat) :
    (get_player_stats s u).2.members = s.members := by
  unfold get_player_stats; split <;> rfl

@[simp] theorem get_player_stats_snd_teams (s : State) (u : Nat) :
    (get_player_stats s u).2.teams = s.teams := by
  unfold get_player_stats; split <;> rfl

@[simp] theorem get_player_stats_snd_config (s : State) (u : Nat) :
    (get_player_stats s u).2.config = s.config := by
  unfold get_player_stats; split <;> rfl

@[simp] theorem get_player_stats_snd_free_agents (s : State) (u : Nat) :
    (get_player_stats s u).2.free_agents = s.free_agents := by
  unfold get_player_stats; split <;> rfl

@[simp] theorem get_player_stats_snd_channels (s : State) (u : Nat) :
    (get_player_stats s u).2.channels = s.channels := by
  unfold get_player_stats; split <;> rfl

@[simp] theorem get_player_stats_snd_guildRoles (s : State) (u : Nat) :
    (get_player_stats s u).2.guildRoles = s.guildRoles := by
  unfold get_player_stats; split <;> rfl

@[simp] theorem update_stat_members (s : State) (u : Nat) (t : StatType) (a : Int) :
    (update_stat s u t a).members = s.members := by
  unfold update_stat; simp

@[simp] theorem update_stat_teams (s : State) (u : Nat) (t : StatType) (a : Int) :
    (update_stat s u t a).teams = s.teams := by
  unfold update_stat; simp

@[simp] theorem update_stat_config (s : State) (u : Nat) (t : StatType) (a : Int) :
    (update_stat s u t a).config = s.config := by
  unfold update_stat; simp

@[simp] theorem update_stat_free_agents (s : State) (u : Nat) (t : StatType) (a : Int) :
    (update_stat s u t a).free_agents = s.free_agents := by
  unfold update_stat; simp

@[simp] theorem update_stat_channels (s : State) (u : Nat) (t : StatType) (a : Int) :
    (update_stat s u t a).channels = s.channels := by
  unfold update_stat; simp

@[simp] theorem update_stat_guildRoles (s : State) (u : Nat) (t : StatType) (a : Int) :
    (update_stat s u t a).guildRoles = s.guildRoles := by
  unfold update_stat; simp

@[simp] theorem cleanup_teams (s : State) (u : Nat) :
    (cleanup_free_agent s u).teams = s.teams := by
  unfold cleanup_free_agent
  dsimp only
  repeat' split
  all_goals rfl

@[simp] theorem cleanup_player_stats (s : State) (u : Nat) :
    (cleanup_free_agent s u).player_stats = s.player_stats := by
  unfold cleanup_free_agent
  dsimp only
  repeat' split
  all_goals rfl

@[simp] theorem cleanup_config (s : State) (u : Nat) :
    (cleanup_free_agent s u).config = s.config := by
  unfold cleanup_free_agent
  dsimp only
  repeat' split
  all_goals rfl

@[simp] theorem cleanup_channels (s : State) (u : Nat) :
    (cleanup_free_agent s u).channels = s.channels := by
  unfold cleanup_free_agent
  dsimp only
  repeat' split
  all_goals rfl

@[simp] theorem cleanup_guildRoles (s : State) (u : Nat) :
    (cleanup_free_agent s u).guildRoles = s.guildRoles := by
  unfold cleanup_free_agent
  dsimp only
  repeat' split
  all_goals rfl

/-- After deleting every row with the new row's key and appending the new row,
a keyed lookup finds exactly the new row. -/
theorem find?_filter_ne_append {α : Type} (key : α → Nat) (l : List α) (row : α) :
    ((l.filter (fun a => key a ≠ key row)) ++ [row]).find? (fun a => key a = key row)
      = some row := by
  rw [List.find?_append]
  have h1 : (l.filter (fun a => key a ≠ key row)).find? (fun a => key a = key row) = none := by
    rw [List.find?_eq_none]
    intro x hx
    rcases List.mem_filter.mp hx with ⟨_, h2⟩
    simpa using h2
  rw [h1]
  simp

/-- After deleting every row with the new row's key and appending the new row,
the rows with that key are exactly the new row. -/
theorem filter_filter_ne_append {α : Type} (key : α → Nat) (l : List α) (row : α) :
    ((l.filter (fun a => key a ≠ key row)) ++ [row]).filter (fun a => key a = key row)
      = [row] := by
  rw [List.filter_append, List.filter_filter]
  have h1 : l.filter (fun a => decide (key a = key row) && decide (key a ≠ key row)) = [] := by
    rw [List.filter_eq_nil_iff]
    intro a _
    by_cases h : key a = key row <;> simp [h]
  rw [h1, List.nil_append]
  simp

/-- The row get_player_stats hands back carries the user's stored demand count. -/
theorem get_player_stats_fst_demands (s : State) (uid : Nat) :
    (get_player_stats s uid).1.demands = demandsOf s uid := by
  unfold get_player_stats demandsOf
  cases h : s.player_stats.find? (fun r => r.user_id = uid) <;> simp [h]

/-- The row get_player_stats hands back carries the user's stored transfer count. -/
theorem get_player_stats_fst_transfers (s : State) (uid : Nat) :
    (get_player_stats s uid).1.transfers = transfersOf s uid := by
  unfold get_player_stats transfersOf
  cases h : s.player_stats.find? (fun r => r.user_id = uid) <;> simp [h]

/-- After get_player_stats the user's row exists and is the returned row. -/
theorem stats_find?_get_player_stats (s : State) (uid : Nat) :
    (get_player_stats s uid).2.player_stats.find? (fun r => r.user_id = uid)
      = some (get_player_stats s uid).1 := by
  unfold get_player_stats
  cases h : s.player_stats.find? (fun r => r.user_id = uid) <;> simp [h, List.find?_append]

/-- The lazy row creation does not change the stored demand count. -/
theorem demandsOf_get_player_stats (s : State) (uid : Nat) :
    demandsOf (get_player_stats s uid).2 uid = demandsOf s uid := by
  simp only [demandsOf, stats_find?_get_player_stats]
  exact get_player_stats_fst_demands s uid

/-- The lazy row creation does not change the stored transfer count. -/
theorem transfersOf_get_player_stats (s : State) (uid : Nat) :
    transfersOf (get_player_stats s uid).2 uid = transfersOf s uid := by
  simp only [transfersOf, stats_find?_get_player_stats]
  exact get_player_stats_fst_transfers s uid

/-- applyStat preserves the row's key. -/
theorem applyStat_user_id (t : StatType) (a : Int) (r : StatsRow) :
    (applyStat t a r).user_id = r.user_id := by
  cases t <;> rfl

/-- After update_stat the user's row is the (ensured) row with the chosen
column bumped. -/
theorem find?_update_stat (s : State) (uid : Nat) (t : StatType) (a : Int) :
    (update_stat s uid t a).player_stats.find? (fun r => r.user_id = uid)
      = some (applyStat t a (get_player_stats s uid).1) := by
  unfold update_stat
  dsimp only
  rw [find?_map_if_key StatsRow.user_id uid (applyStat t a) (applyStat_user_id t a)]
  rw [stats_find?_get_player_stats]
  rfl

/-- `update_stat _ _ demand a` adds exactly a to the stored demand count. -/
theorem demandsOf_update_stat_demand (s : State) (uid : Nat) (a : Int) :
    demandsOf (update_stat s uid .demand a) uid = demandsOf s uid + a := by
  simp only [demandsOf, find?_update_stat, applyStat]
  exact congrArg (fun x => x + a) (get_player_stats_fst_demands s uid)

/-- `update_stat _ _ transfer a` adds exactly a to the stored transfer count. -/
theorem transfersOf_update_stat_transfer (s : State) (uid : Nat) (a : Int) :
    transfersOf (update_stat s uid .transfer a) uid = transfersOf s uid + a := by
  simp only [transfersOf, find?_update_stat, applyStat]
  exact congrArg (fun x => x + a) (get_player_stats_fst_transfers s uid)

/-- Looking a member up after remove_roles: same member with the role filtered out. -/
theorem getMember_removeRole (s : State) (uid r : Nat) :
    getMember (removeRole s uid r) uid
      = (getMember s uid).map (fun m => { m with roles := m.roles.filter (fun x => x ≠ r) }) := by
  unfold getMember removeRole
  dsimp only
  exact find?_map_if_key Member.id uid
    (fun m => { m with roles := m.roles.filter (fun x => x ≠ r) }) (fun m => rfl) s.members

/-- Looking a member up after add_roles: same member, with the role appended when new. -/
theorem getMember_addRole (s : State) (uid r : Nat) :
    getMember (addRole s uid r) uid
      = (getMember s uid).map
          (fun m => if r ∈ m.roles then m else { m with roles := m.roles ++ [r] }) := by
  unfold getMember addRole
  dsimp only
  exact find?_map_if_key Member.id uid
    (fun m => if r ∈ m.roles then m else { m with roles := m.roles ++ [r] })
    (fun m => by by_cases h : r ∈ m.roles <;> simp [h]) s.members

/-- remove_roles filters the role out of the user's role list. -/
theorem rolesOf_removeRole (s : State) (uid r : Nat) :
    rolesOf (removeRole s uid r) uid = (rolesOf s uid).filter (fun x => x ≠ r) := by
  unfold rolesOf
  rw [getMember_removeRole]
  cases getMember s uid <;> simp

/-- Membership in the role list after add_roles. -/
theorem mem_rolesOf_addRole (s : State) (uid r x : Nat) (m : Member)
    (h : getMember s uid = some m) :
    x ∈ rolesOf (addRole s uid r) uid ↔ (x ∈ m.roles ∨ x = r) := by
  unfold rolesOf
  rw [getMember_addRole, h]
  dsimp only [Option.map]
  by_cases hr : r ∈ m.roles
  · rw [if_pos hr]
    exact ⟨Or.inl, fun hx => hx.elim id (fun e => e ▸ hr)⟩
  · rw [if_neg hr]
    simp

/-- cleanup_free_agent either leaves the user's roles alone or filters out the
configured free-agent role. -/
theorem rolesOf_cleanup (s : State) (uid : Nat) :
    rolesOf (cleanup_free_agent s uid) uid = rolesOf s uid ∨
      (∃ c fr, s.config = some c ∧ c.free_agent_role_id = some fr ∧
        rolesOf (cleanup_free_agent s uid) uid = (rolesOf s uid).filter (fun x => x ≠ fr)) := by
  unfold cleanup_free_agent
  dsimp only
  split
  case h_2 => exact Or.inl rfl
  case h_1 c hc =>
    split
    case h_2 => exact Or.inl rfl
    case h_1 fr hfr =>
      split
      case isFalse => exact Or.inl rfl
      case isTrue hmem =>
        split
        case h_2 => exact Or.inl rfl
        case h_1 m hm =>
          split
          case isFalse => exact Or.inl rfl
          case isTrue hin =>
            refine Or.inr ⟨c, fr, hc, hfr, ?_⟩
            exact rolesOf_removeRole _ uid fr

/-- Two states with the same teams table store the same transaction images. -/
theorem transImageOf_congr {s s' : State} (id : Nat) (h : s'.teams = s.teams) :
    transImageOf s' id = transImageOf s id := by
  unfold transImageOf getTeamData
  rw [h]

/-- Two states with the same player_stats store the same demand counts. -/
theorem demandsOf_congr {s s' : State} (uid : Nat) (h : s'.player_stats = s.player_stats) :
    demandsOf s' uid = demandsOf s uid := by
  unfold demandsOf
  rw [h]

/-- Two states with the same player_stats store the same transfer counts. -/
theorem transfersOf_congr {s s' : State} (uid : Nat) (h : s'.player_stats = s.player_stats) :
    transfersOf s' uid = transfersOf s uid := by
  unfold transfersOf
  rw [h]

/-- Two states with the same member list give everyone the same roles. -/
theorem rolesOf_congr {s s' : State} (uid : Nat) (h : s'.members = s.members) :
    rolesOf s' uid = rolesOf s uid := by
  unfold rolesOf getMember
  rw [h]

/-- Membership in a user's roles after add_roles, with the member-existence
condition made explicit. -/
theorem mem_rolesOf_addRole2 (s : State) (uid r x : Nat) :
    x ∈ rolesOf (addRole s uid r) uid ↔
      (x ∈ rolesOf s uid ∨ (x = r ∧ (getMember s uid).isSome)) := by
  unfold rolesOf
  rw [getMember_addRole]
  cases h : getMember s uid with
  | none => simp
  | some m =>
    dsimp only [Option.map]
    by_cases hr : r ∈ m.roles
    · rw [if_pos hr]
      constructor
      · exact Or.inl
      · rintro (hx | ⟨rfl, _⟩)
        · exact hx
        · exact hr
    · rw [if_neg hr]
      simp

theorem sign_teams (s : State) (a b : Nat) : (sign s a b).1.teams = s.teams := by
  unfold sign
  try dsimp only
  repeat' split
  all_goals simp

theorem release_teams (s : State) (a b : Nat) : (release s a b).1.teams = s.teams := by
  unfold release
  try dsimp only
  repeat' split
  all_goals simp

/-- /transfer never mutates guild or database state. -/
theorem transfer_fst (s : State) (a b : Nat) (d : Bool) : (transfer s a b d).1 = s := by
  unfold transfer
  try dsimp only
  repeat' split
  all_goals rfl

theorem accept_teams (s : State) (v : ViewState) (p f t : Nat) :
    (accept s v p f t).1.teams = s.teams := by
  unfold accept
  try dsimp only
  repeat' split
  all_goals simp

theorem demand_teams (s : State) (u : Nat) : (demand s u).1.teams = s.teams := by
  unfold demand
  try dsimp only
  repeat' split
  all_goals simp

theorem looking_for_team_teams (s : State) (u : Nat) (reg pos desc ts : String) :
    (looking_for_team s u reg pos desc ts).1.teams = s.teams := by
  unfold looking_for_team
  try dsimp only
  repeat' split
  all_goals rfl

theorem looking_for_team_free_agents (s : State) (u : Nat) (reg pos desc ts : String) :
    (looking_for_team s u reg pos desc ts).1.free_agents
      = insertOrReplaceAgent s.free_agents ⟨u, reg, pos, desc, ts⟩ := by
  unfold looking_for_team
  try dsimp only
  repeat' split
  all_goals rfl

theorem window_cmd_teams (s : State) (ad : Bool) (st : Int) :
    (window_cmd s ad st).1.teams = s.teams := by
  unfold window_cmd
  try dsimp only
  repeat' split
  all_goals rfl

/-! ## Claim theorems -/

/-- C6: running setup_team a second time with the same role id leaves exactly
one row keyed by that role id in the teams table, with the logo and roster
limit replaced by the new values (the transaction image carried over from the
state before the first call), rather than adding a second row. -/
theorem c6_setup_team_overwrites (s : State) (id : Nat) (l1 l2 : String) (r1 r2 : Int) :
    (setup_team (setup_team s true id l1 r1).1 true id l2 r2).1.teams.filter
        (fun t => t.team_role_id = id)
      = [⟨id, l2, r2, transImageOf s id⟩] := by
  have hti : getTeamData (setup_team s true id l1 r1).1.teams id
      = some ⟨id, l1, r1, transImageOf s id⟩ :=
    find?_filter_ne_append TeamRow.team_role_id s.teams ⟨id, l1, r1, transImageOf s id⟩
  have h2 : (setup_team (setup_team s true id l1 r1).1 true id l2 r2).1.teams
      = insertOrReplaceTeam (setup_team s true id l1 r1).1.teams
          ⟨id, l2, r2, transImageOf s id⟩ := by
    show insertOrReplaceTeam (setup_team s true id l1 r1).1.teams
        ⟨id, l2, r2,
         (getTeamData (setup_team s true id l1 r1).1.teams id).bind
           (fun t => t.transaction_image)⟩ = _
    rw [hti]
    rfl
  rw [h2]
  exact filter_filter_ne_append TeamRow.team_role_id _ ⟨id, l2, r2, transImageOf s id⟩

/-- C7: submitting a free-agent listing when one already exists for that user
replaces the existing row (all fields overwritten) and leaves exactly one
free_agents row for that user id. -/
theorem c7_free_agent_replaced (s : State) (uid : Nat) (reg pos desc ts : String)
    (hex : ∃ r ∈ s.free_agents, r.user_id = uid) :
    (looking_for_team s uid reg pos desc ts).1.free_agents.filter
        (fun r => r.user_id = uid)
      = [⟨uid, reg, pos, desc, ts⟩] := by
  rw [looking_for_team_free_agents]
  exact filter_filter_ne_append FreeAgentRow.user_id s.free_agents ⟨uid, reg, pos, desc, ts⟩

/-- C7 witness: a concrete state with an existing listing for user 5. -/
theorem c7_free_agent_replaced_witness :
    (looking_for_team
        ⟨none, [], [⟨5, "EU", "ST", "old", "t0"⟩], [], [], [], []⟩
        5 "NA" "GK" "new" "t1").1.free_agents.filter (fun r => r.user_id = 5)
      = [⟨5, "NA", "GK", "new", "t1"⟩] :=
  c7_free_agent_replaced ⟨none, [], [⟨5, "EU", "ST", "old", "t0"⟩], [], [], [], []⟩
    5 "NA" "GK" "new" "t1" ⟨⟨5, "EU", "ST", "old", "t0"⟩, by simp, rfl⟩

/-- C10: setup_team preserves the team's stored transaction_image (while
writing the new logo and roster limit), and none of sign, release, transfer,
accept, demand, looking_for_team or window changes any team's stored
transaction_image; team_delete erases the row (image gone), so among the
modeled mutators only decorate_transactions and team deletion touch the field. -/
theorem c10_transaction_image_frame (s : State) (id : Nat) :
    (∀ lg rl, transImageOf (setup_team s true id lg rl).1 id = transImageOf s id ∧
       getTeamData (setup_team s true id lg rl).1.teams id
         = some ⟨id, lg, rl, transImageOf s id⟩) ∧
    (∀ a b, transImageOf (sign s a b).1 id = transImageOf s id) ∧
    (∀ a b, transImageOf (release s a b).1 id = transImageOf s id) ∧
    (∀ a b d, transImageOf (transfer s a b d).1 id = transImageOf s id) ∧
    (∀ v p f t, transImageOf (accept s v p f t).1 id = transImageOf s id) ∧
    (∀ u, transImageOf (demand s u).1 id = transImageOf s id) ∧
    (∀ u reg pos desc ts,
       transImageOf (looking_for_team s u reg pos desc ts).1 id = transImageOf s id) ∧
    (∀ ad st, transImageOf (window_cmd s ad st).1 id = transImageOf s id) ∧
    (∀ ad, transImageOf (team_delete s ad id).1 id = none ∨
       transImageOf (team_delete s ad id).1 id = transImageOf s id) := by
  refine ⟨?_, ?_, ?_, ?_, ?_, ?_, ?_, ?_, ?_⟩
  · intro lg rl
    have hfind : getTeamData (setup_team s true id lg rl).1.teams id
        = some ⟨id, lg, rl, transImageOf s id⟩ :=
      find?_filter_ne_append TeamRow.team_role_id s.teams ⟨id, lg, rl, transImageOf s id⟩
    refine ⟨?_, hfind⟩
    unfold transImageOf
    rw [hfind]
    rfl
  · intro a b; exact transImageOf_congr id (sign_teams s a b)
  · intro a b; exact transImageOf_congr id (release_teams s a b)
  · intro a b d; exact transImageOf_congr id (congrArg State.teams (transfer_fst s a b d))
  · intro v p f t; exact transImageOf_congr id (accept_teams s v p f t)
  · intro u; exact transImageOf_congr id (demand_teams s u)
  · intro u reg pos desc ts
    exact transImageOf_congr id (looking_for_team_teams s u reg pos desc ts)
  · intro ad st; exact transImageOf_congr id (window_cmd_teams s ad st)
  · intro ad
    cases ad
    · exact Or.inr rfl
    · left
      have hnone : getTeamData (s.teams.filter (fun t => t.team_role_id ≠ id)) id = none := by
        rw [getTeamData, List.find?_eq_none]
        intro x hx
        rcases List.mem_filter.mp hx with ⟨_, h2⟩
        simpa using h2
      unfold transImageOf
      rw [show (team_delete s true id).1.teams
            = s.teams.filter (fun t => t.team_role_id ≠ id) from rfl, hnone]
      rfl

/-- C2: for a guild whose window_open flag is 0 the shared gate is_window_open
is false, and each of sign, release, transfer and transfer-accept returns its
error message with the entire state (roles, stats, stored rows) unchanged. -/
theorem c2_window_gates_uniformly (s : State) (c : GlobalConfig)
    (hc : s.config = some c) (hw : c.window_open = 0) :
    is_window_open s.config = false ∧
    (∀ a b, sign s a b = (s, Except.error "❌ **Window Closed.**")) ∧
    (∀ a b, release s a b = (s, Except.error "❌ Window Closed.")) ∧
    (∀ a b d, transfer s a b d = (s, Except.error "❌ **Window CLOSED.**")) ∧
    (∀ v p f t, accept s v p f t
       = (s, v, Except.error "❌ **Transfer Window is CLOSED.**")) := by
  have hwin : is_window_open s.config = false := by
    rw [hc]
    unfold is_window_open
    simp [hw]
  refine ⟨hwin, ?_, ?_, ?_, ?_⟩
  · intro a b; unfold sign; rw [hwin]; rfl
  · intro a b; unfold release; rw [hwin]; rfl
  · intro a b d; unfold transfer; rw [hwin]; rfl
  · intro v p f t; unfold accept; rw [hwin]; rfl

/-- C2 witness: concrete closed-window guild, all four operations refused with
the state unchanged. -/
theorem c2_window_gates_uniformly_witness :
    sign sClosed 1 2 = (sClosed, Except.error "❌ **Window Closed.**") ∧
    release sClosed 1 2 = (sClosed, Except.error "❌ Window Closed.") ∧
    transfer sClosed 1 2 true = (sClosed, Except.error "❌ **Window CLOSED.**") ∧
    accept sClosed ⟨false, false, false⟩ 7 100 101
      = (sClosed, ⟨false, false, false⟩, Except.error "❌ **Transfer Window is CLOSED.**") :=
  ⟨(c2_window_gates_uniformly sClosed cClosed rfl rfl).2.1 1 2,
   (c2_window_gates_uniformly sClosed cClosed rfl rfl).2.2.1 1 2,
   (c2_window_gates_uniformly sClosed cClosed rfl rfl).2.2.2.1 1 2 true,
   (c2_window_gates_uniformly sClosed cClosed rfl rfl).2.2.2.2 ⟨false, false, false⟩ 7 100 101⟩

/-- C4 counterexample: claim says both outbound fetches carry a 10-second
timeout; in a concrete render run neither urlopen call passes a timeout at all. -/
theorem c4_counterexample :
    ¬ (∀ f ∈ (generate_card_sync ⟨true, true, true, true, true⟩
          (some "http://bg.png") "http://avatar.png" (1, 2, 3)).fetches,
        f.timeout = some 10) := by
  decide

/-- C4 amended: the two outbound network fetches of the card renderer pass no
timeout argument to urlopen at all (platform default, no explicit 10-second
bound). -/
theorem c4_amended_no_timeout (env : CardEnv) (customBgUrl : Option String)
    (avatarUrl : String) (teamColor : Nat × Nat × Nat) :
    ((generate_card_sync env customBgUrl avatarUrl teamColor).fetches).all
        (fun f => f.timeout.isNone) = true := by
  unfold generate_card_sync
  dsimp only
  cases customBgUrl with
  | none => simp
  | some u =>
    by_cases h : u != ""
    · simp [h]
    · simp [h]

/-- C5: the background fallback chain: a provided, non-empty, fetchable custom
url wins; otherwise the local default file when present and decodable;
otherwise a solid fill of the team color with pure black replaced by
(44,47,51); failures fall through, never raise. -/
theorem c5_background_fallback (env : CardEnv) (customBgUrl : Option String)
    (avatarUrl : String) (color : Nat × Nat × Nat) :
    (∀ u, customBgUrl = some u → u ≠ "" → env.customFetchOk = true →
       (generate_card_sync env customBgUrl avatarUrl color).background
         = Background.customUrl u) ∧
    ((∀ u, customBgUrl = some u → u = "" ∨ env.customFetchOk = false) →
       env.defaultFileExists = true → env.defaultFileOk = true →
       (generate_card_sync env customBgUrl avatarUrl color).background
         = Background.defaultFile) ∧
    ((∀ u, customBgUrl = some u → u = "" ∨ env.customFetchOk = false) →
       (env.defaultFileExists = false ∨ env.defaultFileOk = false) →
       (generate_card_sync env customBgUrl avatarUrl color).background
         = Background.solid (if color = (0, 0, 0) then (44, 47, 51) else color)) := by
  refine ⟨?_, ?_, ?_⟩
  · intro u hu hne hok
    subst hu
    have hu' : (u != "") = true := by simpa using hne
    unfold generate_card_sync
    simp [hu', hok]
  · intro hfail hex hok
    unfold generate_card_sync
    cases customBgUrl with
    | none => simp [hex, hok]
    | some u =>
      rcases hfail u rfl with h | h
      · subst h; simp [hex, hok]
      · by_cases hu' : u != "" <;> simp [hu', h, hex, hok]
  · intro hfail hdef
    unfold generate_card_sync
    cases customBgUrl with
    | none =>
      rcases hdef with h | h <;> simp [h]
    | some u =>
      rcases hfail u rfl with hu | hu
      · subst hu
        rcases hdef with h | h <;> simp [h]
      · rcases hdef with h | h <;> by_cases hu' : u != "" <;> simp [hu', hu, h]

/-- C5 witness: with everything available the custom url is used. -/
theorem c5_background_fallback_witness :
    (generate_card_sync ⟨true, true, true, true, true⟩ (some "http://bg.png")
        "http://a" (0, 0, 0)).background = Background.customUrl "http://bg.png" :=
  (c5_background_fallback ⟨true, true, true, true, true⟩ (some "http://bg.png")
      "http://a" (0, 0, 0)).1 "http://bg.png" rfl (by decide) rfl

/-- C8: the recipient of a transfer offer is the first member of the target
team holding the head-manager role; absent one, the first member holding the
assistant role; absent both, the proposal is refused with an error and no
offer is delivered. -/
theorem c8_transfer_recipient (s : State) (c : GlobalConfig) (callerId playerId : Nat)
    (dmOk : Bool) (caller player : Member) (myTeam targetTeam : Nat)
    (lgC lgP : String) (lmC lmP : Int) (tiC tiP : Option String)
    (hc : s.config = some c)
    (hwin : is_window_open s.config = true)
    (hcall : getMember s callerId = some caller)
    (hplay : getMember s playerId = some player)
    (hmy : find_user_team s.teams caller.roles = some (myTeam, lgC, lmC, tiC))
    (htg : find_user_team s.teams player.roles = some (targetTeam, lgP, lmP, tiP))
    (hne : myTeam ≠ targetTeam) :
    (∀ h, (teamMembers s targetTeam).find? (fun m => c.manager_role_id ∈ m.roles) = some h →
       transfer s callerId playerId dmOk = (s, Except.ok ⟨h.id, dmOk⟩)) ∧
    ((teamMembers s targetTeam).find? (fun m => c.manager_role_id ∈ m.roles) = none →
       ∀ a, (teamMembers s targetTeam).find? (fun m => c.asst_role_id ∈ m.roles) = some a →
         transfer s callerId playerId dmOk = (s, Except.ok ⟨a.id, dmOk⟩)) ∧
    ((teamMembers s targetTeam).find? (fun m => c.manager_role_id ∈ m.roles) = none →
       (teamMembers s targetTeam).find? (fun m => c.asst_role_id ∈ m.roles) = none →
       transfer s callerId playerId dmOk = (s, Except.error "❌ Team has no active Manager.")) := by
  have htm : get_managers_of_team s targetTeam
      = ((teamMembers s targetTeam).filter (fun m => c.manager_role_id ∈ m.roles),
         (teamMembers s targetTeam).filter
           (fun m => c.manager_role_id ∉ m.roles ∧ c.asst_role_id ∈ m.roles)) := by
    unfold get_managers_of_team
    rw [hc]
  have hred : transfer s callerId playerId dmOk
      = (match ((teamMembers s targetTeam).filter
            (fun m => c.manager_role_id ∈ m.roles)).head? with
         | some h => (s, Except.ok ⟨h.id, dmOk⟩)
         | none =>
           match ((teamMembers s targetTeam).filter
               (fun m => c.manager_role_id ∉ m.roles ∧ c.asst_role_id ∈ m.roles)).head? with
           | some a => (s, Except.ok ⟨a.id, dmOk⟩)
           | none => (s, Except.error "❌ Team has no active Manager.")) := by
    unfold transfer
    rw [hwin, hcall, hplay]
    dsimp only
    rw [hmy, htg]
    dsimp only
    rw [htm]
    simp [hne]
  refine ⟨?_, ?_, ?_⟩
  · intro h hh
    rw [hred, head?_filter, hh]
  · intro hm0 a ha
    have hall : ∀ m ∈ teamMembers s targetTeam, c.manager_role_id ∉ m.roles := by
      intro m hm
      have := List.find?_eq_none.mp hm0 m hm
      simpa using this
    have hfilter : (teamMembers s targetTeam).filter
          (fun m => c.manager_role_id ∉ m.roles ∧ c.asst_role_id ∈ m.roles)
        = (teamMembers s targetTeam).filter (fun m => c.asst_role_id ∈ m.roles) := by
      apply List.filter_congr
      intro m hm
      simp [hall m hm]
    rw [hred, head?_filter, hm0, hfilter, head?_filter, ha]
  · intro hm0 ha0
    have hall : ∀ m ∈ teamMembers s targetTeam, c.manager_role_id ∉ m.roles := by
      intro m hm
      have := List.find?_eq_none.mp hm0 m hm
      simpa using this
    have hfilter : (teamMembers s targetTeam).filter
          (fun m => c.manager_role_id ∉ m.roles ∧ c.asst_role_id ∈ m.roles)
        = (teamMembers s targetTeam).filter (fun m => c.asst_role_id ∈ m.roles) := by
      apply List.filter_congr
      intro m hm
      simp [hall m hm]
    rw [hred, head?_filter, hm0, hfilter, head?_filter, ha0]

/-- C8 witness: manager 8 of team Y proposes for player 7 of team X; the offer
goes to member 5, the first member of team X holding the manager role. -/
theorem c8_transfer_recipient_witness :
    transfer sOpen 8 7 true = (sOpen, Except.ok ⟨5, true⟩) :=
  (c8_transfer_recipient sOpen cOpen 8 7 true memH memP 101 100
      "Y" "X" 20 20 none (some "http://bgX")
      rfl (by decide) (by decide) (by decide) (by decide) (by decide) (by decide)).1
    memHX (by decide)

/-- C1: the demand operation is refused (error reply, no role change, no
counter change) whenever the user's stored demand count is at least the
configured limit; a successful demand adds exactly 1 to the count; hence a
count that is at most the limit never exceeds it. -/
theorem c1_demand_limit (s : State) (uid : Nat) :
    (demandsOf s uid ≥ demandLimitOf s.config →
       (∃ e, (demand s uid).2 = Except.error e) ∧
       (demand s uid).1.members = s.members ∧
       demandsOf (demand s uid).1 uid = demandsOf s uid) ∧
    (∀ st out, demand s uid = (st, Except.ok out) →
       demandsOf st uid = demandsOf s uid + 1) ∧
    (demandsOf s uid ≤ demandLimitOf s.config →
       demandsOf (demand s uid).1 uid ≤ demandLimitOf s.config) := by
  have hfd := get_player_stats_fst_demands s uid
  unfold demand
  dsimp only
  split
  · exact ⟨fun _ => ⟨⟨_, rfl⟩, rfl, rfl⟩, fun st out h => by simp at h, fun h => h⟩
  · split
    · exact ⟨fun _ => ⟨⟨_, rfl⟩, rfl, rfl⟩, fun st out h => by simp at h, fun h => h⟩
    · split
      · refine ⟨fun _ => ⟨⟨_, rfl⟩, get_player_stats_snd_members s uid,
            demandsOf_get_player_stats s uid⟩,
          fun st out h => by simp at h, fun hle => ?_⟩
        rw [demandsOf_get_player_stats s uid]
        exact hle
      · rename_i teamRole lg lm ti hteam hlt
        rw [hfd] at hlt
        have hrm : demandsOf (removeRole (get_player_stats s uid).2 uid teamRole) uid
            = demandsOf s uid := by
          rw [demandsOf_congr uid (removeRole_player_stats _ _ _), demandsOf_get_player_stats]
        have hs3 : demandsOf (update_stat (removeRole (get_player_stats s uid).2 uid teamRole)
              uid .demand 1) uid = demandsOf s uid + 1 := by
          rw [demandsOf_update_stat_demand, hrm]
        refine ⟨fun hge => absurd hge hlt, ?_, ?_⟩
        · intro st out h
          have h1 := congrArg Prod.fst h
          dsimp at h1
          rw [← h1]
          repeat' split
          all_goals exact hs3
        · intro hle
          dsimp only
          repeat' split
          all_goals first
          | (rw [hs3]; omega)
          | (rw [demandsOf_congr uid (addRole_player_stats _ _ _), hs3]; omega)

/-- C1 witness: player 7 with 3 demands used against limit 3 is refused; the
member list and the demand count are untouched. -/
theorem c1_demand_limit_witness :
    (∃ e, (demand sFull 7).2 = Except.error e) ∧
    (demand sFull 7).1.members = sFull.members ∧
    demandsOf (demand sFull 7).1 7 = demandsOf sFull 7 :=
  (c1_demand_limit sFull 7).1 (by decide)

/-- C9: demand is not gated by the transfer window: for a guild whose
window_open flag is 0 (so the shared gate is false) a team member with
remaining demands still succeeds, loses the team role, and has the demand
counter incremented by 1 — exactly the open-window behavior. -/
theorem c9_demand_not_window_gated (s : State) (c : GlobalConfig) (uid : Nat)
    (user : Member) (teamRole : Nat) (lg : String) (lm : Int) (ti : Option String)
    (hc : s.config = some c) (hw : c.window_open = 0)
    (hm : getMember s uid = some user)
    (ht : find_user_team s.teams user.roles = some (teamRole, lg, lm, ti))
    (hfa : ∀ fr, c.free_agent_role_id = some fr → fr ≠ teamRole)
    (hlt : demandsOf s uid < demandLimitOf s.config) :
    is_window_open s.config = false ∧
    (∃ out, (demand s uid).2 = Except.ok out) ∧
    teamRole ∉ rolesOf (demand s uid).1 uid ∧
    demandsOf (demand s uid).1 uid = demandsOf s uid + 1 := by
  have hwin : is_window_open s.config = false := by
    rw [hc]; unfold is_window_open; simp [hw]
  have hguard : ¬((get_player_stats s uid).1.demands ≥ demandLimitOf s.config) := by
    rw [get_player_stats_fst_demands]; omega
  have hrm : demandsOf (removeRole (get_player_stats s uid).2 uid teamRole) uid
      = demandsOf s uid := by
    rw [demandsOf_congr uid (removeRole_player_stats _ _ _), demandsOf_get_player_stats]
  have hs3d : demandsOf (update_stat (removeRole (get_player_stats s uid).2 uid teamRole)
        uid .demand 1) uid = demandsOf s uid + 1 := by
    rw [demandsOf_update_stat_demand, hrm]
  have hroles3 : rolesOf (update_stat (removeRole (get_player_stats s uid).2 uid teamRole)
        uid .demand 1) uid = (rolesOf s uid).filter (fun x => x ≠ teamRole) := by
    rw [rolesOf_congr uid (update_stat_members _ _ _ _), rolesOf_removeRole,
        rolesOf_congr uid (get_player_stats_snd_members _ _)]
  refine ⟨hwin, ?_, ?_, ?_⟩
  all_goals unfold demand
  all_goals dsimp only
  all_goals rw [hm]
  all_goals dsimp only
  all_goals rw [ht]
  all_goals dsimp only
  all_goals rw [if_neg hguard]
  · exact ⟨_, rfl⟩
  · dsimp only
    split
    · rename_i c2 heqc
      split
      · rename_i fr heqfr
        split
        · rename_i hin
          have hc2 : c2 = c := by
            rw [update_stat_config, removeRole_config, get_player_stats_snd_config, hc] at heqc
            exact (Option.some.inj heqc).symm
          have hfr2 : fr ≠ teamRole := hfa fr (by rw [← hc2]; exact heqfr)
          intro hmem
          rcases (mem_rolesOf_addRole2 _ uid fr teamRole).mp hmem with h1 | h2
          · rw [hroles3] at h1
            rcases List.mem_filter.mp h1 with ⟨_, hbad⟩
            simp at hbad
          · exact hfr2 (h2.1.symm)
        · intro hmem
          rw [hroles3] at hmem
          rcases List.mem_filter.mp hmem with ⟨_, hbad⟩
          simp at hbad
      · intro hmem
        rw [hroles3] at hmem
        rcases List.mem_filter.mp hmem with ⟨_, hbad⟩
        simp at hbad
    · intro hmem
      rw [hroles3] at hmem
      rcases List.mem_filter.mp hmem with ⟨_, hbad⟩
      simp at hbad
  · dsimp only
    repeat' split
    all_goals exact hs3d

/-- C9 witness: with the window closed, player 7 still leaves team 100 and the
counter goes from 0 to 1. -/
theorem c9_demand_not_window_gated_witness :
    is_window_open sClosed.config = false ∧
    (∃ out, (demand sClosed 7).2 = Except.ok out) ∧
    (100 : Nat) ∉ rolesOf (demand sClosed 7).1 7 ∧
    demandsOf (demand sClosed 7).1 7 = demandsOf sClosed 7 + 1 :=
  c9_demand_not_window_gated sClosed cClosed 7 memP 100 "X" 20 (some "http://bgX")
    rfl rfl (by decide) (by decide) (fun fr h => by cases h; decide) (by decide)

/-- C3: accepting a transfer while the window is open, the player still a
member and the contract channel configured: the source team role is removed,
the destination team role added, the transfer counter incremented by 1, a
public notice posted with a card freshly rendered from the destination team's
current stored background, and both buttons of the control disabled. -/
theorem c3_accept_transfer (s : State) (c : GlobalConfig) (v : ViewState)
    (playerId fromTeam toTeam ch : Nat) (m : Member)
    (hc : s.config = some c)
    (hwin : is_window_open s.config = true)
    (hm : getMember s playerId = some m)
    (hne : fromTeam ≠ toTeam)
    (hch : c.contract_channel_id = some ch) (hchex : ch ∈ s.channels)
    (hfa : ∀ fr, c.free_agent_role_id = some fr → fr ≠ toTeam) :
    fromTeam ∉ rolesOf (accept s v playerId fromTeam toTeam).1 playerId ∧
    toTeam ∈ rolesOf (accept s v playerId fromTeam toTeam).1 playerId ∧
    transfersOf (accept s v playerId fromTeam toTeam).1 playerId
      = transfersOf s playerId + 1 ∧
    (accept s v playerId fromTeam toTeam).2.1 = ⟨true, true, true⟩ ∧
    (accept s v playerId fromTeam toTeam).2.2
      = Except.ok ⟨⟨playerId, "OFFICIAL TRANSFER", transImageOf s toTeam⟩, true,
                   "✅ **Transfer Approved.**"⟩ := by
  have hmem1 : getMember (removeRole s playerId fromTeam) playerId
      = some { m with roles := m.roles.filter (fun x => x ≠ fromTeam) } := by
    rw [getMember_removeRole, hm]
    rfl
  have hr1 : rolesOf (removeRole s playerId fromTeam) playerId
      = (rolesOf s playerId).filter (fun x => x ≠ fromTeam) :=
    rolesOf_removeRole s playerId fromTeam
  have hto2 : toTeam ∈ rolesOf (addRole (removeRole s playerId fromTeam) playerId toTeam)
      playerId := by
    rw [mem_rolesOf_addRole2]
    refine Or.inr ⟨rfl, ?_⟩
    rw [hmem1]
    rfl
  have hfrom2 : fromTeam ∉ rolesOf (addRole (removeRole s playerId fromTeam) playerId toTeam)
      playerId := by
    rw [mem_rolesOf_addRole2]
    rintro (h1 | h2)
    · rw [hr1] at h1
      rcases List.mem_filter.mp h1 with ⟨_, hbad⟩
      simp at hbad
    · exact hne h2.1
  have hcl := rolesOf_cleanup (addRole (removeRole s playerId fromTeam) playerId toTeam) playerId
  have hto3 : toTeam ∈ rolesOf (cleanup_free_agent
      (addRole (removeRole s playerId fromTeam) playerId toTeam) playerId) playerId := by
    rcases hcl with h | ⟨c2, fr, hc2, hfr, hfil⟩
    · rw [h]; exact hto2
    · have hcc : c2 = c := by
        rw [addRole_config, removeRole_config, hc] at hc2
        exact (Option.some.inj hc2).symm
      have hfrne : fr ≠ toTeam := hfa fr (by rw [← hcc]; exact hfr)
      rw [hfil]
      refine List.mem_filter.mpr ⟨hto2, ?_⟩
      simp
      exact fun e => hfrne e.symm
  have hfrom3 : fromTeam ∉ rolesOf (cleanup_free_agent
      (addRole (removeRole s playerId fromTeam) playerId toTeam) playerId) playerId := by
    rcases hcl with h | ⟨c2, fr, hc2, hfr, hfil⟩
    · rw [h]; exact hfrom2
    · rw [hfil]
      intro hmem
      exact hfrom2 (List.mem_filter.mp hmem).1
  have htr : transfersOf (update_stat (cleanup_free_agent
        (addRole (removeRole s playerId fromTeam) playerId toTeam) playerId)
        playerId .transfer 1) playerId = transfersOf s playerId + 1 := by
    rw [transfersOf_update_stat_transfer,
        transfersOf_congr playerId (cleanup_player_stats _ _)]
    rfl
  have hroles4 : rolesOf (update_stat (cleanup_free_agent
        (addRole (removeRole s playerId fromTeam) playerId toTeam) playerId)
        playerId .transfer 1) playerId
      = rolesOf (cleanup_free_agent
        (addRole (removeRole s playerId fromTeam) playerId toTeam) playerId) playerId :=
    rolesOf_congr playerId (update_stat_members _ _ _ _)
  have hsend : sendToChannelOk (update_stat (cleanup_free_agent
        (addRole (removeRole s playerId fromTeam) playerId toTeam) playerId)
        playerId .transfer 1) = true := by
    unfold sendToChannelOk
    rw [update_stat_config, cleanup_config, addRole_config, removeRole_config, hc]
    dsimp only
    rw [hch]
    dsimp only
    simp [hchex]
  have hteams4 : (update_stat (cleanup_free_agent
        (addRole (removeRole s playerId fromTeam) playerId toTeam) playerId)
        playerId .transfer 1).teams = s.teams := by
    simp
  refine ⟨?_, ?_, ?_, ?_, ?_⟩
  all_goals unfold accept
  all_goals rw [hwin]
  all_goals rw [if_neg (show ¬((!true) = true) by decide)]
  all_goals rw [hm]
  all_goals dsimp only
  · rw [hroles4]; exact hfrom3
  · rw [hroles4]; exact hto3
  · exact htr
  · rw [hsend]
    have hbg : (getTeamData (update_stat (cleanup_free_agent
        (addRole (removeRole s playerId fromTeam) playerId toTeam) playerId)
        playerId .transfer 1).teams toTeam).bind (fun t => t.transaction_image)
        = transImageOf s toTeam := by
      rw [hteams4]
      rfl
    rw [hbg]

/-- C3 witness: player 7 moves from team 100 to team 101 in the concrete open
guild; counter 0 becomes 1, notice posted, both buttons disabled. -/
theorem c3_accept_transfer_witness :
    (100 : Nat) ∉ rolesOf (accept sOpen ⟨false, false, false⟩ 7 100 101).1 7 ∧
    (101 : Nat) ∈ rolesOf (accept sOpen ⟨false, false, false⟩ 7 100 101).1 7 ∧
    transfersOf (accept sOpen ⟨false, false, false⟩ 7 100 101).1 7
      = transfersOf sOpen 7 + 1 ∧
    (accept sOpen ⟨false, false, false⟩ 7 100 101).2.1 = ⟨true, true, true⟩ ∧
    (accept sOpen ⟨false, false, false⟩ 7 100 101).2.2
      = Except.ok ⟨⟨7, "OFFICIAL TRANSFER", transImageOf sOpen 101⟩, true,
                   "✅ **Transfer Approved.**"⟩ :=
  c3_accept_transfer sOpen cOpen ⟨false, false, false⟩ 7 100 101 20 memP
    rfl (by decide) (by decide) (by decide) rfl (by decide)
    (fun fr h => by cases h; decide)

end Proxima
